import Mathlib

/-!
Verification development for the phase-6 directional navigation planner
(src/agent/prompts/phase_6.py).

The planner's module-level mutable globals (_LAST_MAP_STATE, _STUCK_COUNTER,
_LAST_PRIORITY_USED, _MOVEMENT_HISTORY, _CURRENT_PHASE, _PHASE_MOVE_COUNT)
are modelled as an explicit `PlannerState` record threaded through the
functions.  The two external collaborators (`format_map_grid` from
utils.map_formatter and `astar_pathfind` from utils.state_formatter) are not
part of this repository; they are modelled as abstract function parameters
bundled in an `Externals` record, exactly as the spec treats them (fixed-contract
primitives).  Python `float` coefficients are modelled as exact rationals
(`ℚ`); Python strings are Lean `String`s, with the handful of string methods
the source uses (`str.upper`, `str.strip`, `str.split(',')`) implemented
structurally over the character list so that they evaluate inside the kernel.
Python exceptions that the source catches are modelled by the value the
enclosing `except` branch produces.
-/

/-- A raw map tile as `_is_stuck` reads it: an indexable sequence whose
element 2 is the collision flag (`tile[2]`). -/
abbrev RawTile := List Int

/-- The slice of the `state_data` dictionary that the navigation code reads:
`map.location_name`, `player.position.x/y`, `map.tiles`, `map.npcs`. -/
structure StateData where
  location : String
  px : Int
  py : Int
  rawTiles : List (List RawTile)
  npcs : List (List Int)
deriving DecidableEq

/-- The module-level mutable globals of phase_6.py, made explicit. -/
structure PlannerState where
  lastMapState : Option String
  stuckCounter : Nat
  lastPriorityUsed : Option String
  movementHistory : List String
  currentPhase : Nat
  phaseMoveCount : Nat
deriving DecidableEq

/-- The initial values of the module-level globals. -/
def initialPlannerState : PlannerState :=
  { lastMapState := none, stuckCounter := 0, lastPriorityUsed := none,
    movementHistory := [], currentPhase := 0, phaseMoveCount := 0 }

/-- The two external collaborators consumed by the planner, as abstract
functions: `format_map_grid(raw_tiles, "South", npcs, player_coords,
location_name)` and `astar_pathfind(grid, start, goal, location_name)`.
`format_map_grid` returning `none` models the Python function returning a
falsy value.  A grid is a list of rows of tile symbols. -/
structure Externals where
  format_map_grid : List (List RawTile) → String → List (List Int) →
      Int × Int → String → Option (List (List Char))
  astar_pathfind : List (List Char) → Nat × Nat → Nat × Nat → String →
      List String

/-- Python `str.upper()` for the ASCII strings the planner handles. -/
def pyUpper (s : String) : String := ⟨s.data.map Char.toUpper⟩

/-- Whitespace recognised by Python `str.strip()` (the subset that can occur
in the planner's action strings). -/
def isPySpace (c : Char) : Bool := c = ' ' ∨ c = '\t' ∨ c = '\n' ∨ c = '\r'

/-- Python `str.strip()`. -/
def pyStrip (s : String) : String :=
  ⟨((s.data.dropWhile isPySpace).reverse.dropWhile isPySpace).reverse⟩

/-- Helper for `pySplitComma`: accumulates the current field (reversed). -/
def pySplitCommaAux : List Char → List Char → List (List Char)
  | [], acc => [acc.reverse]
  | c :: cs, acc =>
      if c = ',' then acc.reverse :: pySplitCommaAux cs []
      else pySplitCommaAux cs (c :: acc)

/-- Python `str.split(',')`. -/
def pySplitComma (s : String) : List String :=
  (pySplitCommaAux s.data []).map String.mk

/-- `_get_map_state_hash`: `f"{location}_{pos_x}_{pos_y}"`.  With the
modelled `StateData` record the `try` body always succeeds. -/
def get_map_state_hash (s : StateData) : String :=
  s.location ++ "_" ++ toString s.px ++ "_" ++ toString s.py

/-- The blocked-neighbor half of `_is_stuck`: the player is assumed at the
center of `raw_tiles`; up/down/left/right tiles whose element 2 is nonzero
are counted, and 3 or more of them fire the check.  An out-of-range access
raises in Python and is caught by the enclosing `except`, making the whole
check `false`; that is modelled by the `Option` (`none` = exception). -/
def surroundedNeighbors (tiles : List (List RawTile)) (center : Nat) :
    Option (List (Option RawTile)) := do
  let row0len := (tiles.getD 0 []).length
  let up ← if center > 0 then ((tiles.getD (center - 1) []).get? center).map some
           else some none
  let down ← if center < tiles.length - 1 then
               ((tiles.getD (center + 1) []).get? center).map some
             else some none
  let left ← if center > 0 then ((tiles.getD center []).get? (center - 1)).map some
             else some none
  let right ← if center < row0len - 1 then
                ((tiles.getD center []).get? (center + 1)).map some
              else some none
  pure [up, down, left, right]

/-- `if tile and len(tile) >= 3: collision = tile[2]; collision != 0`. -/
def tileBlocked : Option RawTile → Bool
  | none => false
  | some t => ¬ t = [] ∧ t.length ≥ 3 ∧ ¬ t.getD 2 0 = 0

/-- The "completely surrounded" check inside `_is_stuck` (lines 64-89). -/
def surroundedCheck (tiles : List (List RawTile)) : Bool :=
  if ¬ tiles = [] ∧ tiles.length > 0 then
    let center := tiles.length / 2
    if center > 0 ∧ center < tiles.length ∧ (tiles.getD center []).length > center then
      match surroundedNeighbors tiles center with
      | none => false
      | some nbrs => (nbrs.countP tileBlocked) ≥ 3
    else false
  else false

/-- The fingerprint/counter update at the top of `_is_stuck` (lines 51-57):
`current_state == _LAST_MAP_STATE` increments the counter, anything else
resets it to 0 and stores the new fingerprint. -/
def is_stuck_update (st : PlannerState) (s : StateData) : PlannerState :=
  if some (get_map_state_hash s) = st.lastMapState then
    { st with stuckCounter := st.stuckCounter + 1 }
  else
    { st with stuckCounter := 0, lastMapState := some (get_map_state_hash s) }

/-- `_is_stuck`: updates the fingerprint/counter state and reports whether
the planner is stuck (counter reached 1, or the surrounded check fires).
Returns (stuck?, updated state). -/
def is_stuck (st : PlannerState) (s : StateData) : Bool × PlannerState :=
  if (is_stuck_update st s).stuckCounter ≥ 1 then (true, is_stuck_update st s)
  else (surroundedCheck s.rawTiles, is_stuck_update st s)

/-- `_reset_stuck`. -/
def reset_stuck (st : PlannerState) : PlannerState := { st with stuckCounter := 0 }

/-- The four cardinal movement tokens. -/
def movementTokens : List String := ["UP", "DOWN", "LEFT", "RIGHT"]

/-- The movement tokens extracted from an action string by `_track_movement`:
split on ',', strip, uppercase, keep the four cardinal tokens. -/
def extractMovements (actionString : String) : List String :=
  (pySplitComma actionString).filterMap fun a =>
    let u := pyUpper (pyStrip a)
    if u ∈ movementTokens then some u else none

/-- `_track_movement`: appends extracted movements to the rolling history,
keeps the last 100 (`_MOVEMENT_HISTORY[-100:]`), and adds their count to
`_PHASE_MOVE_COUNT`. -/
def track_movement (st : PlannerState) (actionString : String) : PlannerState :=
  if actionString = "" then st
  else
    let movements := extractMovements actionString
    let hist := st.movementHistory ++ movements
    { st with
        movementHistory := hist.drop (hist.length - 100),
        phaseMoveCount := st.phaseMoveCount + movements.length }

/-- `_advance_phase`. -/
def advance_phase (st : PlannerState) : PlannerState :=
  { st with currentPhase := st.currentPhase + 1, phaseMoveCount := 0 }

/-- The keys of the `DIRECTION_FILTERS` dictionary. -/
def directionKeys : List String :=
  ["NORTH", "SOUTH", "EAST", "WEST",
   "NORTHEAST", "NORTHWEST", "SOUTHEAST", "SOUTHWEST"]

/-- `DIRECTION_FILTERS` (phase_6.py lines 195-204): the per-direction
candidate filter, on the player's visual coordinates `(px, py)` and a
candidate's visual coordinates `(tx, ty)`. -/
def direction_filters (d : String) (px py tx ty : Int) : Bool :=
  if d = "NORTH" then ty ≥ py + 2
  else if d = "SOUTH" then ty ≤ py - 2
  else if d = "EAST" then tx ≥ px + 2
  else if d = "WEST" then tx ≤ px - 2
  else if d = "NORTHEAST" then tx > px ∧ (ty ≥ py + 2 ∨ tx ≥ px + 2)
  else if d = "NORTHWEST" then tx < px ∧ (ty ≥ py + 2 ∨ tx ≤ px - 2)
  else if d = "SOUTHEAST" then tx > px ∧ (ty ≤ py - 2 ∨ tx ≥ px + 2)
  else if d = "SOUTHWEST" then tx < px ∧ (ty ≤ py - 2 ∨ tx ≤ px - 2)
  else false

/-- `DIRECTION_SCORING` (phase_6.py lines 206-217). -/
def direction_scoring (d : String) (px py tx ty : Int) : Int :=
  if d = "NORTH" then ((ty - py) * 1000000) - (|tx - px| * 1000)
  else if d = "SOUTH" then ((py - ty) * 1000000) - (|tx - px| * 1000)
  else if d = "EAST" then ((tx - px) * 1000000) - (|ty - py| * 1000)
  else if d = "WEST" then ((px - tx) * 1000000) - (|ty - py| * 1000)
  else if d = "NORTHEAST" then ((ty - py) * 100000) + ((tx - px) * 1000)
  else if d = "NORTHWEST" then ((ty - py) * 100000) + ((px - tx) * 1000)
  else if d = "SOUTHEAST" then ((py - ty) * 100000) + ((tx - px) * 1000)
  else if d = "SOUTHWEST" then ((py - ty) * 100000) + ((px - tx) * 1000)
  else 0

/-- The neighbor offsets `_is_dead_end` checks for a given approach
direction (phase_6.py lines 247-262); offsets are `(dx, dy)` in storage
coordinates, `dy = -1` being one row up (north). -/
def checkDirections (d : String) : List (Int × Int) :=
  if d ∈ ["NORTH", "NORTHEAST", "NORTHWEST"] then [(0, -1), (1, 0), (-1, 0)]
  else if d ∈ ["SOUTH", "SOUTHEAST", "SOUTHWEST"] then [(0, 1), (1, 0), (-1, 0)]
  else if d = "EAST" then [(1, 0), (0, -1), (0, 1)]
  else if d = "WEST" then [(-1, 0), (0, -1), (0, 1)]
  else [(0, -1), (0, 1), (-1, 0), (1, 0)]

/-- Grid lookup `grid[ny][nx]`, with the out-of-bounds default ' '
(only read behind in-bounds guards on rectangular grids). -/
def tileAt (grid : List (List Char)) (nx ny : Int) : Char :=
  (grid.getD ny.toNat []).getD nx.toNat ' '

/-- The walkability test `_is_dead_end` applies to a neighbor cell:
in bounds and `tile not in ['#', 'W', ' ', None]` (a `Char` grid cannot
hold `None`). -/
def deadEndNbrWalkable (grid : List (List Char)) (width height x y : Int)
    (off : Int × Int) : Bool :=
  let nx := x + off.1
  let ny := y + off.2
  0 ≤ nx ∧ nx < width ∧ 0 ≤ ny ∧ ny < height ∧
    ¬ tileAt grid nx ny ∈ ['#', 'W', ' ']

/-- `_is_dead_end` (phase_6.py lines 220-278). -/
def is_dead_end (grid : List (List Char)) (pos : Int × Int) (d : String) : Bool :=
  if grid = [] then false
  else
    let height : Int := grid.length
    let width : Int := (grid.getD 0 []).length
    let x := pos.1
    let y := pos.2
    if ¬ (0 ≤ x ∧ x < width ∧ 0 ≤ y ∧ y < height) then false
    else
      let forwardWalkable :=
        (checkDirections d).countP (deadEndNbrWalkable grid width height x y)
      forwardWalkable < 2

/-- One regex match of `([NSEW])(\d+\.?\d*)`: the direction letter and the
matched number text. -/
abbrev CoeffMatch := Char × List Char

/-- `re.findall(r'([NSEW])(\d+\.?\d*)', s)`: scan left to right; at an
`NSEW` letter followed by at least one digit, consume greedily digits, an
optional dot, and more digits; otherwise move on one character. -/
def scanCoeffMatches : List Char → List CoeffMatch
  | [] => []
  | c :: rest =>
    if c ∈ ['N', 'S', 'E', 'W'] then
      let ds := rest.takeWhile Char.isDigit
      if ds = [] then scanCoeffMatches rest
      else
        match h : rest.drop ds.length with
        | '.' :: rest2 =>
            let fs := rest2.takeWhile Char.isDigit
            (c, ds ++ ['.'] ++ fs) :: scanCoeffMatches (rest2.drop fs.length)
        | _ => (c, ds) :: scanCoeffMatches (rest.drop ds.length)
    else scanCoeffMatches rest
termination_by l => l.length
decreasing_by
  · simp only [List.length_cons]; omega
  · have hlen := congrArg List.length h
    simp only [List.length_drop, List.length_cons] at hlen
    simp only [List.length_drop, List.length_cons]
    omega
  · simp only [List.length_drop, List.length_cons]; omega
  · simp only [List.length_cons]; omega

/-- Digit characters to the `Nat` they denote. -/
def digitsToNat (l : List Char) : Nat :=
  l.foldl (fun acc c => acc * 10 + (c.toNat - '0'.toNat)) 0

/-- Python `float(...)` of a matched `\d+\.?\d*` numeral, as an exact
rational (the planner's coefficients are modelled exactly rather than in
IEEE-754; none of the verified properties depends on rounding). -/
def floatOfChars (cs : List Char) : ℚ :=
  let ip := cs.takeWhile (fun c => ¬ c = '.')
  let rest := cs.drop ip.length
  match rest with
  | [] => (digitsToNat ip : ℚ)
  | _ :: fs => mkRat (digitsToNat ip * 10 ^ fs.length + digitsToNat fs) (10 ^ fs.length)

/-- The `direction_map` letter expansion in
`_parse_priority_with_coefficients`. -/
def letterToDirection (c : Char) : String :=
  if c = 'N' then "NORTH"
  else if c = 'S' then "SOUTH"
  else if c = 'E' then "EAST"
  else "WEST"

/-- Python `dict` assignment semantics for the coefficients mapping:
overwrite in place if the key exists, else append. -/
def dictAssign (l : List (String × ℚ)) (k : String) (v : ℚ) : List (String × ℚ) :=
  if l.any (fun p => p.1 = k) then
    l.map (fun p => if p.1 = k then (k, v) else p)
  else l ++ [(k, v)]

/-- The combined-direction lookup at the end of
`_parse_priority_with_coefficients`, defaulting to the original string. -/
def combineDirection (ds : String) (dflt : String) : String :=
  if ds = "N" then "NORTH"
  else if ds = "S" then "SOUTH"
  else if ds = "E" then "EAST"
  else if ds = "W" then "WEST"
  else if ds = "NE" then "NORTHEAST"
  else if ds = "NW" then "NORTHWEST"
  else if ds = "SE" then "SOUTHEAST"
  else if ds = "SW" then "SOUTHWEST"
  else dflt

/-- `_parse_priority_with_coefficients` (phase_6.py lines 377-432).
The coefficients dictionary is modelled as an insertion-ordered
association list. -/
def parse_priority_with_coefficients (priority : String) :
    String × List (String × ℚ) :=
  if priority ∈ directionKeys then (priority, [])
  else
    let ms := scanCoeffMatches (pyUpper priority).data
    if ms = [] then (priority, [])
    else
      let coefficients := ms.foldl
        (fun acc m => dictAssign acc (letterToDirection m.1) (floatOfChars m.2)) []
      let directionStr : String := ⟨ms.map (fun m => m.1)⟩
      (combineDirection directionStr priority, coefficients)

/-- The fixed per-direction zig-zag motifs of `_get_zigzag_pattern`
(phase_6.py lines 495-505), with the `.get(direction, ['UP'])` default. -/
def zigzagBase (d : String) : List String :=
  if d = "NORTHEAST" then ["UP", "UP", "RIGHT", "DOWN"]
  else if d = "NORTHWEST" then ["UP", "UP", "LEFT", "DOWN"]
  else if d = "SOUTHEAST" then ["DOWN", "DOWN", "RIGHT", "UP"]
  else if d = "SOUTHWEST" then ["DOWN", "DOWN", "LEFT", "UP"]
  else if d = "NORTH" then ["UP", "UP", "UP", "UP"]
  else if d = "SOUTH" then ["DOWN", "DOWN", "DOWN", "DOWN"]
  else if d = "EAST" then ["RIGHT", "RIGHT", "RIGHT", "RIGHT"]
  else if d = "WEST" then ["LEFT", "LEFT", "LEFT", "LEFT"]
  else ["UP"]

/-- The `while len(result) < length: result.extend(base_pattern)` loop of
`_get_zigzag_pattern`; the base patterns are all non-empty so `len` rounds
of extension always suffice (fuel makes the loop structurally total). -/
def zigzagExtendLoop (base : List String) : Nat → List String → Nat → List String
  | 0, acc, _ => acc
  | fuel + 1, acc, len =>
      if acc.length < len then zigzagExtendLoop base fuel (acc ++ base) len
      else acc

/-- `_get_zigzag_pattern(direction, length)`. -/
def get_zigzag_pattern (d : String) (length : Nat) : List String :=
  (zigzagExtendLoop (zigzagBase d) length [] length).take length

/-- Visual Y coordinate of storage row `y` in a grid of height `h`:
`grid_height - 1 - y_idx`. -/
def visY (h y : Nat) : Int := (h : Int) - 1 - (y : Int)

/-- The walkable tile symbols used for candidate enumeration. -/
def walkableTileSyms : List Char := ['.', '~', 'S']

/-- `P` search within one row: first index holding 'P'. -/
def findPlayerInRow : Nat → List Char → Option Nat
  | _, [] => none
  | x, c :: cs => if c = 'P' then some x else findPlayerInRow (x + 1) cs

/-- The player-location scan of `_path_to_direction`: first row containing
'P', leftmost occurrence in it; returns `(x_idx, y_idx)` in storage
coordinates. -/
def findPlayerFrom : Nat → List (List Char) → Option (Nat × Nat)
  | _, [] => none
  | y, row :: rows =>
      match findPlayerInRow 0 row with
      | some x => some (x, y)
      | none => findPlayerFrom (y + 1) rows

def findPlayer (grid : List (List Char)) : Option (Nat × Nat) :=
  findPlayerFrom 0 grid

/-- Candidate collection over one row (the inner `for x_idx, symbol in
enumerate(row)` loop): walkable symbols passing the direction filter become
`(score, (x_idx, y_idx))` entries. -/
def rowCandidates (d : String) (px pvy : Int) (h y : Nat) :
    Nat → List Char → List (Int × (Nat × Nat))
  | _, [] => []
  | x, sym :: rest =>
      (if sym ∈ walkableTileSyms ∧
          direction_filters d px pvy (x : Int) (visY h y) then
         [(direction_scoring d px pvy (x : Int) (visY h y), (x, y))]
       else []) ++ rowCandidates d px pvy h y (x + 1) rest

/-- Candidate collection over the whole grid (the outer
`for y_idx, row in enumerate(grid)` loop). -/
def gridCandidates (d : String) (px pvy : Int) (h : Nat) :
    Nat → List (List Char) → List (Int × (Nat × Nat))
  | _, [] => []
  | y, row :: rows =>
      rowCandidates d px pvy h y 0 row ++ gridCandidates d px pvy h (y + 1) rows

/-- The candidate loop of `_path_to_direction` (lines 359-366): try up to 20
best candidates; skip a candidate whose path is empty or whose destination
is a dead end; return the first surviving `(goal, path)`. -/
def tryCandidates (ext : Externals) (grid : List (List Char))
    (start : Nat × Nat) (d loc : String) :
    List (Int × (Nat × Nat)) → Option ((Nat × Nat) × List String)
  | [] => none
  | (_, g) :: rest =>
      if ext.astar_pathfind grid start g loc = [] then
        tryCandidates ext grid start d loc rest
      else if is_dead_end grid ((g.1 : Int), (g.2 : Int)) d then
        tryCandidates ext grid start d loc rest
      else some (g, ext.astar_pathfind grid start g loc)

/-- `_path_to_direction` (phase_6.py lines 281-374), additionally exposing
the goal the returned path leads to.  `none` models every `return []`
branch.  The candidate sort models Python's stable `sort(reverse=True,
key=lambda x: x[0])`. -/
def path_to_direction_goal (ext : Externals) (s : StateData)
    (d loc : String) : Option ((Nat × Nat) × List String) :=
  if ¬ d ∈ directionKeys then none
  else if s.rawTiles = [] then none
  else
    match ext.format_map_grid s.rawTiles "South" s.npcs (s.px, s.py) loc with
    | none => none
    | some grid =>
      if grid = [] then none
      else
        match findPlayer grid with
        | none => none
        | some (pgx, pyIdx) =>
          if List.insertionSort (fun a b : Int × (Nat × Nat) => b.1 ≤ a.1)
              (gridCandidates d (pgx : Int) (visY grid.length pyIdx)
                grid.length 0 grid) = [] then none
          else
            tryCandidates ext grid (pgx, pyIdx) d loc
              ((List.insertionSort (fun a b : Int × (Nat × Nat) => b.1 ≤ a.1)
                (gridCandidates d (pgx : Int) (visY grid.length pyIdx)
                  grid.length 0 grid)).take 20)

/-- `_path_to_direction` as the source exposes it: just the path. -/
def path_to_direction (ext : Externals) (s : StateData) (d loc : String) :
    List String :=
  match path_to_direction_goal ext s d loc with
  | some (_, p) => p
  | none => []

/-- `DIRECTION_TO_MOVEMENT` inside `_apply_movement_coefficients`. -/
def directionToMovement (d : String) : Option String :=
  if d = "NORTH" then some "UP"
  else if d = "SOUTH" then some "DOWN"
  else if d = "EAST" then some "RIGHT"
  else if d = "WEST" then some "LEFT"
  else none

/-- `math.ceil(n * (c - 1.0))` computed exactly on the rational `c`:
`n*(c-1) = n*(c.num - c.den)/c.den` and `ceil(x) = -floor(-x)`, with
`Int.fdiv` the flooring division. -/
def ceilMulSubOne (n : Nat) (c : ℚ) : Int :=
  -(((-((n : Int) * (c.num - (c.den : Int))))).fdiv (c.den : Int))

/-- `_apply_movement_coefficients` (phase_6.py lines 435-482): for each
coefficient entry, append `ceil(count * (coeff - 1))` extra copies of the
direction's movement at the end of the path when that is positive. -/
def coeffExtraStep (path acc : List String) (dc : String × ℚ) : List String :=
  match directionToMovement dc.1 with
  | none => acc
  | some movement =>
      let originalCount := path.count movement
      if originalCount > 0 then
        let extraCount := ceilMulSubOne originalCount dc.2
        if extraCount > 0 then acc ++ List.replicate extraCount.toNat movement
        else acc
      else acc

def apply_movement_coefficients (path : List String)
    (coefficients : List (String × ℚ)) : List String :=
  if coefficients = [] then path
  else path ++ coefficients.foldl (coeffExtraStep path) []

/-- The result of a `_path_with_priority_list` call, split into the label
prefix of the returned f-string and the comma-joined action tokens, plus
the updated planner state.  The Python return value is
`label ++ ", ".join(actions)` (see `planActionString`). -/
structure PlanResult where
  label : String
  actions : List String
  state : PlannerState
deriving DecidableEq

/-- The exact string `_path_with_priority_list` returns. -/
def planActionString (r : PlanResult) : String :=
  r.label ++ String.intercalate ", " r.actions

/-- The `for i, priority in enumerate(priority_list)` loop of
`_path_with_priority_list` (lines 555-581): `DOOR_` entries are skipped,
otherwise the entry is parsed, `_path_to_direction` is consulted, and the
first non-empty path is amplified and terminated with 'A'.  Returns the
successful priority string together with the final action tokens. -/
def tryPriorities (ext : Externals) (s : StateData) (loc : String) :
    List String → Option (String × List String)
  | [] => none
  | priority :: rest =>
      if "DOOR_".data.isPrefixOf priority.data then
        tryPriorities ext s loc rest
      else if path_to_direction ext s (parse_priority_with_coefficients priority).1 loc
          = [] then
        tryPriorities ext s loc rest
      else
        some (priority,
          (if (parse_priority_with_coefficients priority).2 = [] then
             path_to_direction ext s (parse_priority_with_coefficients priority).1 loc
           else
             apply_movement_coefficients
               (path_to_direction ext s (parse_priority_with_coefficients priority).1 loc)
               (parse_priority_with_coefficients priority).2) ++ ["A"])

/-- `_path_with_priority_list` (phase_6.py lines 516-591). -/
def path_with_priority_list (ext : Externals) (st : PlannerState)
    (s : StateData) (priorityList : List String) (loc : String) : PlanResult :=
  let stuckRes := is_stuck st s
  if stuckRes.1 then
    let st2 := reset_stuck stuckRes.2
    let primary := priorityList.headD "NORTH"
    let d := (parse_priority_with_coefficients primary).1
    let zigzag := get_zigzag_pattern d 16
    { label := "\nSuggested action (STUCK - zigzag " ++ d ++ "): ",
      actions := ["B", "B", "B"] ++ zigzag ++ ["A"],
      state := { st2 with lastPriorityUsed := some ("STUCK_ZIGZAG_" ++ d) } }
  else
    match tryPriorities ext s loc priorityList with
    | some (priority, acts) =>
        { label := "\nSuggested action (priority: " ++ priority ++ "): ",
          actions := acts,
          state := { stuckRes.2 with lastPriorityUsed := some priority } }
    | none =>
        let primary := priorityList.headD "NORTH"
        let d := (parse_priority_with_coefficients primary).1
        let zigzag := get_zigzag_pattern d 8
        { label := "\nSuggested action (ZIGZAG fallback - " ++ primary ++ "): ",
          actions := zigzag ++ ["A"],
          state := { stuckRes.2 with
                       lastPriorityUsed := some ("ZIGZAG_FALLBACK_" ++ primary) } }

/-- One phase of `_handle_route_104_north`'s phase table. -/
structure PhaseConfig where
  name : String
  threshold : Nat
  targets : List String
deriving DecidableEq

/-- The `phases` table of `_handle_route_104_north` (lines 983-989). -/
def route104Phases : List PhaseConfig :=
  [⟨"Northeast 1 screen", 10, ["NORTHEAST", "NORTH", "EAST"]⟩,
   ⟨"East 2 screens", 20, ["EAST", "NORTHEAST", "SOUTHEAST"]⟩,
   ⟨"North 1 screen", 10, ["NORTH", "NORTHEAST", "NORTHWEST"]⟩,
   ⟨"West 1 screen", 10, ["WEST", "NORTHWEST", "SOUTHWEST"]⟩,
   ⟨"North 3 screens", 999, ["NORTH", "NORTHEAST", "NORTHWEST"]⟩]

/-- The clamp `if _CURRENT_PHASE >= len(phases): _CURRENT_PHASE =
len(phases) - 1` (lines 992-993). -/
def route104Clamp (st : PlannerState) : PlannerState :=
  if st.currentPhase ≥ route104Phases.length then
    { st with currentPhase := route104Phases.length - 1 }
  else st

/-- The phase configuration selected for a (clamped) phase index. -/
def phaseAt (i : Nat) : PhaseConfig := route104Phases.getD i ⟨"", 0, []⟩

/-- The static prompt text `_handle_route_104_north` returns. -/
def route104Prompt : String :=
  "PHASE 6: Road to Rustboro City ROUTE 104 NORTH - Follow the suggested action EXACTLY."

theorem route104Clamp_lt (st : PlannerState) :
    (route104Clamp st).currentPhase < route104Phases.length := by
  have h5 : route104Phases.length = 5 := rfl
  unfold route104Clamp
  split
  · show route104Phases.length - 1 < route104Phases.length
    omega
  · show st.currentPhase < route104Phases.length
    omega

theorem route104Clamp_count (st : PlannerState) :
    (route104Clamp st).phaseMoveCount = st.phaseMoveCount := by
  unfold route104Clamp; split <;> rfl

theorem phaseAt_threshold_pos (i : Nat) (h : i < route104Phases.length) :
    0 < (phaseAt i).threshold := by
  have h5 : i < 5 := by
    have : route104Phases.length = 5 := rfl
    omega
  interval_cases i <;> decide

/-- `_handle_route_104_north` (phase_6.py lines 967-1020): clamp the phase
index, advance (and recurse) when the move count has reached the phase's
threshold, otherwise plan with the phase's target priority list and track
the produced movements.  Returns (prompt, action string, updated state). -/
def handle_route_104_north (ext : Externals) (s : StateData) (loc : String)
    (st : PlannerState) : String × String × PlannerState :=
  if h : (phaseAt (route104Clamp st).currentPhase).threshold ≤
      (route104Clamp st).phaseMoveCount then
    handle_route_104_north ext s loc (advance_phase (route104Clamp st))
  else
    let r := path_with_priority_list ext (route104Clamp st) s
      (phaseAt (route104Clamp st).currentPhase).targets loc
    let action := planActionString r
    (route104Prompt, action, track_movement r.state action)
termination_by st.phaseMoveCount
decreasing_by
  have h1 := route104Clamp_count st
  have h2 := phaseAt_threshold_pos (route104Clamp st).currentPhase (route104Clamp_lt st)
  simp only [advance_phase]
  omega

/-- Per-move displacement in storage coordinates (`dy = -1` is one row up);
non-movement tokens (such as the confirm press 'A' or cancel 'B') do not
displace the agent. -/
def moveDelta (m : String) : Option (Int × Int) :=
  if m = "UP" then some (0, -1)
  else if m = "DOWN" then some (0, 1)
  else if m = "LEFT" then some (-1, 0)
  else if m = "RIGHT" then some (1, 0)
  else none

/-- The successive grid cells targeted by a move sequence starting at
`pos`. -/
def routeTargetsFrom : Int × Int → List String → List (Int × Int)
  | _, [] => []
  | pos, m :: ms =>
      match moveDelta m with
      | some d =>
          let p := (pos.1 + d.1, pos.2 + d.2)
          p :: routeTargetsFrom p ms
      | none => routeTargetsFrom pos ms

/-- The cells targeted by a route starting from a storage-coordinate
position. -/
def routeTargets (start : Nat × Nat) (moves : List String) : List (Int × Int) :=
  routeTargetsFrom ((start.1 : Int), (start.2 : Int)) moves

/-- Checked grid lookup for route positions (`none` when off-grid). -/
def tileAtPos (grid : List (List Char)) (p : Int × Int) : Option Char :=
  if p.1 < 0 ∨ p.2 < 0 then none
  else (grid.get? p.2.toNat).bind (fun row => row.get? p.1.toNat)

/-- The contract of the external path primitive assumed by the spec
(`findPath ... returns only Walkable-tile steps`): every step of every
returned route lands on a walkable-symbol tile of the queried grid. -/
def astarWalkableContract (ext : Externals) : Prop :=
  ∀ grid st g loc, ∀ q ∈ routeTargets st (ext.astar_pathfind grid st g loc),
    ∃ c, tileAtPos grid q = some c ∧ c ∈ walkableTileSyms

/-- An `Externals` instance whose path primitive never finds a route and
whose grid builder fails; used to exercise fallback branches. -/
def extNone : Externals :=
  { format_map_grid := fun _ _ _ _ _ => none,
    astar_pathfind := fun _ _ _ _ => [] }

/-- A minimal state: one raw tile row, so the surrounded check is inert but
`_path_to_direction` does not bail out on empty tiles. -/
def sMinimal : StateData :=
  { location := "X", px := 0, py := 0, rawTiles := [[[0, 0, 0]]], npcs := [] }

/-- A state whose raw tiles box the (center) player in on all four sides:
every neighbor of the center cell of the 3x3 tile array has a nonzero
collision flag (`tile[2] = 1`). -/
def sBoxedIn : StateData :=
  { location := "X", px := 0, py := 0,
    rawTiles := [[[0, 0, 1], [0, 0, 1], [0, 0, 1]],
                 [[0, 0, 1], [0, 0, 0], [0, 0, 1]],
                 [[0, 0, 1], [0, 0, 1], [0, 0, 1]]],
    npcs := [] }

-- ============================================================
-- C8 / C9: the movement amplifier
-- ============================================================

theorem ceilMulSubOne_nonpos (n : Nat) (q : ℚ) (h : q ≤ 1) :
    ceilMulSubOne n q ≤ 0 := by
  unfold ceilMulSubOne
  have hd : (0 : ℚ) < (q.den : ℚ) := by exact_mod_cast q.den_pos
  have h1 : (q.num : ℚ) / (q.den : ℚ) ≤ 1 := by
    rw [Rat.num_div_den]; exact h
  have h2 : (q.num : ℚ) ≤ (q.den : ℚ) := (div_le_one hd).mp h1
  have hnum : q.num ≤ (q.den : Int) := by exact_mod_cast h2
  have hx : (0 : Int) ≤ -((n : Int) * (q.num - (q.den : Int))) := by
    have := mul_nonpos_of_nonneg_of_nonpos
      (by positivity : (0 : Int) ≤ (n : Int)) (by omega : q.num - (q.den : Int) ≤ 0)
    omega
  have := Int.fdiv_nonneg hx (by positivity : (0 : Int) ≤ ((q.den : Int)))
  omega

theorem coeffExtra_nil (path : List String) (c : List (String × ℚ))
    (h : ∀ p ∈ c, p.2 ≤ 1) (acc : List String) :
    c.foldl (coeffExtraStep path) acc = acc := by
  induction c generalizing acc with
  | nil => rfl
  | cons dc rest ih =>
      have hdc : dc.2 ≤ 1 := h dc (List.mem_cons_self dc rest)
      have hrest : ∀ p ∈ rest, p.2 ≤ 1 := fun p hp => h p (List.mem_cons_of_mem dc hp)
      have hstep : coeffExtraStep path acc dc = acc := by
        unfold coeffExtraStep
        cases directionToMovement dc.1 with
        | none => rfl
        | some movement =>
            simp only []
            split
            · have := ceilMulSubOne_nonpos (path.count movement) dc.2 hdc
              rw [if_neg (by omega)]
            · rfl
      rw [List.foldl_cons, hstep, ih hrest]

/-- C9: the amplifier is the identity whenever every coefficient is at most
1.0 (in particular when every coefficient equals 1.0): coefficients that do
not exceed 1 contribute no extra steps. -/
theorem amplifier_identity_of_coeffs_le_one (r : List String)
    (c : List (String × ℚ)) (h : ∀ p ∈ c, p.2 ≤ 1) :
    apply_movement_coefficients r c = r := by
  unfold apply_movement_coefficients
  split
  · rfl
  · rw [coeffExtra_nil r c h [], List.append_nil]

theorem amplifier_identity_witness :
    (∀ p ∈ [("NORTH", (1 : ℚ)), ("EAST", mkRat 1 2)], p.2 ≤ 1) ∧
      apply_movement_coefficients ["UP", "UP", "RIGHT"]
        [("NORTH", (1 : ℚ)), ("EAST", mkRat 1 2)] = ["UP", "UP", "RIGHT"] :=
  ⟨by decide, amplifier_identity_of_coeffs_le_one _ _ (by decide)⟩

/-- C8: the amplifier never shortens a route; under non-negative
coefficients (indeed under any coefficients) the original route is a prefix
of the result — every extra step is appended at the end, never
interleaved — so the amplified length is at least the original length. -/
theorem amplifier_never_shortens (r : List String) (c : List (String × ℚ))
    (h : ∀ p ∈ c, 0 ≤ p.2) :
    (∃ extra, apply_movement_coefficients r c = r ++ extra) ∧
      r.length ≤ (apply_movement_coefficients r c).length := by
  have hshape : ∃ extra, apply_movement_coefficients r c = r ++ extra := by
    unfold apply_movement_coefficients
    split
    · exact ⟨[], by simp⟩
    · exact ⟨_, rfl⟩
  refine ⟨hshape, ?_⟩
  obtain ⟨extra, he⟩ := hshape
  rw [he, List.length_append]
  omega

theorem amplifier_never_shortens_witness :
    (∀ p ∈ [("NORTH", mkRat 3 2)], (0 : ℚ) ≤ p.2) ∧
      (∃ extra, apply_movement_coefficients ["UP", "UP", "RIGHT"]
          [("NORTH", mkRat 3 2)] = ["UP", "UP", "RIGHT"] ++ extra) ∧
      (["UP", "UP", "RIGHT"] : List String).length ≤
        (apply_movement_coefficients ["UP", "UP", "RIGHT"]
          [("NORTH", mkRat 3 2)]).length :=
  ⟨by decide, amplifier_never_shortens _ _ (by decide)⟩

-- ============================================================
-- C10: the movement tracker invariant
-- ============================================================

theorem extractMovements_subset (a : String) :
    ∀ m ∈ extractMovements a, m ∈ movementTokens := by
  intro m hm
  unfold extractMovements at hm
  rw [List.mem_filterMap] at hm
  obtain ⟨x, _, hx⟩ := hm
  by_cases hu : pyUpper (pyStrip x) ∈ movementTokens
  · simp only [hu, if_pos] at hx
    rw [← Option.some_inj.mp hx]
    exact hu
  · simp [hu] at hx

/-- C10: the movement tracker preserves the rolling-history invariant:
starting from a history of at most 100 entries that holds only the four
cardinal move tokens, after any call the history still has at most 100
entries and still holds only cardinal move tokens (non-movement actions in
the input string are never recorded). -/
theorem track_movement_invariant (st : PlannerState) (a : String)
    (hlen : st.movementHistory.length ≤ 100)
    (hmem : ∀ m ∈ st.movementHistory, m ∈ movementTokens) :
    (track_movement st a).movementHistory.length ≤ 100 ∧
      ∀ m ∈ (track_movement st a).movementHistory, m ∈ movementTokens := by
  unfold track_movement
  split
  · exact ⟨hlen, hmem⟩
  · constructor
    · simp only [List.length_drop]
      omega
    · intro m hm
      have hm' : m ∈ st.movementHistory ++ extractMovements a :=
        List.drop_subset _ _ hm
      rw [List.mem_append] at hm'
      cases hm' with
      | inl h => exact hmem m h
      | inr h => exact extractMovements_subset a m h

theorem track_movement_invariant_witness :
    ((["UP"] : List String).length ≤ 100 ∧ ∀ m ∈ (["UP"] : List String), m ∈ movementTokens) ∧
      (track_movement { initialPlannerState with movementHistory := ["UP"] }
          "\nSuggested action: UP, B, RIGHT, A").movementHistory.length ≤ 100 ∧
      ∀ m ∈ (track_movement { initialPlannerState with movementHistory := ["UP"] }
          "\nSuggested action: UP, B, RIGHT, A").movementHistory, m ∈ movementTokens :=
  ⟨⟨by decide, by decide⟩,
   track_movement_invariant _ _ (by decide) (by decide)⟩

-- ============================================================
-- C5: the stuck-detector fingerprint protocol
-- ============================================================

theorem is_stuck_snd (st : PlannerState) (s : StateData) :
    (is_stuck st s).2 = is_stuck_update st s := by
  unfold is_stuck
  split <;> rfl

theorem is_stuck_update_last (st : PlannerState) (s : StateData) :
    (is_stuck_update st s).lastMapState = some (get_map_state_hash s) := by
  unfold is_stuck_update
  split
  · rename_i h
    exact h.symm
  · rfl

theorem is_stuck_snd_last (st : PlannerState) (s : StateData) :
    (is_stuck st s).2.lastMapState = some (get_map_state_hash s) := by
  rw [is_stuck_snd]; exact is_stuck_update_last st s

theorem is_stuck_fst_of_repeat (st : PlannerState) (s : StateData)
    (h : some (get_map_state_hash s) = st.lastMapState) :
    (is_stuck st s).1 = true := by
  have hc : (is_stuck_update st s).stuckCounter = st.stuckCounter + 1 := by
    unfold is_stuck_update; rw [if_pos h]
  unfold is_stuck
  rw [if_pos (by rw [hc]; omega)]

/-- C5: for every stored fingerprint state, two consecutive detector calls
with the same (location, x, y) fingerprint fire "stuck" on the second call,
and a following call with a different fingerprint resets the consecutive-
repeat counter to 0 and stores the new fingerprint. -/
theorem stuck_detector_protocol (st : PlannerState) (s1 s2 s3 : StateData)
    (h12 : get_map_state_hash s1 = get_map_state_hash s2)
    (h23 : ¬ get_map_state_hash s2 = get_map_state_hash s3) :
    (is_stuck (is_stuck st s1).2 s2).1 = true ∧
      (is_stuck (is_stuck (is_stuck st s1).2 s2).2 s3).2.stuckCounter = 0 ∧
      (is_stuck (is_stuck (is_stuck st s1).2 s2).2 s3).2.lastMapState =
        some (get_map_state_hash s3) := by
  have hl1 : (is_stuck st s1).2.lastMapState = some (get_map_state_hash s1) :=
    is_stuck_snd_last st s1
  have hfire : (is_stuck (is_stuck st s1).2 s2).1 = true := by
    apply is_stuck_fst_of_repeat
    rw [hl1, h12]
  refine ⟨hfire, ?_, is_stuck_snd_last _ s3⟩
  have hl2 : (is_stuck (is_stuck st s1).2 s2).2.lastMapState =
      some (get_map_state_hash s2) := is_stuck_snd_last _ s2
  rw [is_stuck_snd]
  unfold is_stuck_update
  rw [if_neg (by
    rw [hl2]
    intro hcontra
    exact h23 (Option.some_inj.mp hcontra).symm)]

/-- A state identical to `sMinimal` except for its location name, so its
fingerprint differs. -/
def sOtherLoc : StateData := { sMinimal with location := "Y" }

theorem stuck_detector_protocol_witness :
    (get_map_state_hash sMinimal = get_map_state_hash sMinimal ∧
      ¬ get_map_state_hash sMinimal = get_map_state_hash sOtherLoc) ∧
    (is_stuck (is_stuck initialPlannerState sMinimal).2 sMinimal).1 = true ∧
    (is_stuck (is_stuck (is_stuck initialPlannerState sMinimal).2 sMinimal).2
        sOtherLoc).2.stuckCounter = 0 := by
  have h := stuck_detector_protocol initialPlannerState sMinimal sMinimal sOtherLoc
    rfl (by decide)
  exact ⟨⟨rfl, by decide⟩, h.1, h.2.1⟩

-- ============================================================
-- C7: the dead-end filter
-- ============================================================

/-- The four cardinal neighbor offsets, in storage coordinates. -/
def allCardinalOffsets : List (Int × Int) := [(0, -1), (0, 1), (-1, 0), (1, 0)]

/-- The offset directly opposite the travel axis of an approach direction
(south for north-bound approaches, north for south-bound, west for EAST,
east for WEST); meaningful for the planner's eight directions. -/
def oppositeOffset (d : String) : Int × Int :=
  if d ∈ ["NORTH", "NORTHEAST", "NORTHWEST"] then (0, 1)
  else if d ∈ ["SOUTH", "SOUTHEAST", "SOUTHWEST"] then (0, -1)
  else if d = "EAST" then (-1, 0)
  else (1, 0)

/-- The three neighbor offsets that are not directly opposite the travel
axis. -/
def forwardOffsets (d : String) : List (Int × Int) :=
  allCardinalOffsets.filter (fun o => ¬ o = oppositeOffset d)

/-- C7: for every in-bounds destination and every approach direction, the
dead-end test inspects exactly the 3 neighbor offsets excluding the one
directly opposite the travel axis (the inspected list is a permutation of
the four cardinal offsets minus the opposite one), and classifies the
destination a dead end iff fewer than 2 of those neighbors pass its
walkability test. -/
theorem dead_end_filter_spec (grid : List (List Char)) (x y : Int) (d : String)
    (hd : d ∈ directionKeys) (hg : ¬ grid = [])
    (hx : 0 ≤ x) (hx2 : x < ((grid.getD 0 []).length : Int))
    (hy : 0 ≤ y) (hy2 : y < (grid.length : Int)) :
    (checkDirections d).Perm (forwardOffsets d) ∧
      (is_dead_end grid (x, y) d = true ↔
        (forwardOffsets d).countP
          (deadEndNbrWalkable grid ((grid.getD 0 []).length) (grid.length) x y) < 2) := by
  have hperm : (checkDirections d).Perm (forwardOffsets d) := by
    simp only [directionKeys, List.mem_cons, List.mem_singleton] at hd
    rcases hd with h | h | h | h | h | h | h | h | h <;>
      (first | (subst h; decide) | simp at h)
  refine ⟨hperm, ?_⟩
  unfold is_dead_end
  rw [if_neg (by simpa using hg)]
  rw [if_neg (by
    intro hcontra
    exact hcontra ⟨hx, hx2, hy, hy2⟩)]
  rw [List.Perm.countP_eq _ hperm]
  constructor
  · intro h
    exact of_decide_eq_true h
  · intro h
    exact decide_eq_true h

theorem dead_end_filter_spec_witness :
    ("EAST" ∈ directionKeys ∧
      ¬ ([['.', '.', '.'], ['.', '.', '#'], ['.', '#', '.']] : List (List Char)) = []) ∧
    (checkDirections "EAST").Perm (forwardOffsets "EAST") ∧
      (is_dead_end [['.', '.', '.'], ['.', '.', '#'], ['.', '#', '.']] (1, 1) "EAST" = true ↔
        (forwardOffsets "EAST").countP
          (deadEndNbrWalkable [['.', '.', '.'], ['.', '.', '#'], ['.', '#', '.']] 3 3 1 1) < 2) :=
  ⟨⟨by decide, by decide⟩,
   dead_end_filter_spec _ 1 1 "EAST" (by decide) (by decide)
     (by decide) (by decide) (by decide) (by decide)⟩

-- ============================================================
-- C2: the boxed-in / [EAST] planning scenario
-- ============================================================

/-- "Player fully boxed in on all 4 sides": all four neighbors of the
center cell of the raw tile array exist and carry a nonzero collision
flag. -/
def boxedInAllFour (s : StateData) : Prop :=
  match surroundedNeighbors s.rawTiles (s.rawTiles.length / 2) with
  | some nbrs => nbrs.countP tileBlocked = 4
  | none => False

instance (s : StateData) : Decidable (boxedInAllFour s) := by
  unfold boxedInAllFour
  split
  · exact Nat.decEq _ _
  · exact instDecidableFalse

/-- C2 as claimed: a fully boxed-in player with priority list [EAST] gets
an 8-step East zig-zag (8 'RIGHT' moves) plus the confirm move. -/
def claimC2Statement : Prop :=
  ∀ (ext : Externals) (st : PlannerState) (s : StateData) (loc : String),
    boxedInAllFour s →
    (path_with_priority_list ext st s ["EAST"] loc).actions =
      List.replicate 8 "RIGHT" ++ ["A"]

/-- C2 counterexample: on a concrete fully-boxed-in state the planner fires
the stuck detector and emits the 3-press cancel prefix plus a 16-step East
zig-zag, not the claimed 8-step zig-zag. -/
theorem boxed_in_eight_step_cex : ¬ claimC2Statement := by
  intro h
  have h2 := h extNone initialPlannerState sBoxedIn "x" (by decide)
  have h3 : (path_with_priority_list extNone initialPlannerState sBoxedIn ["EAST"] "x").actions =
      ["B", "B", "B"] ++ List.replicate 16 "RIGHT" ++ ["A"] := by decide
  rw [h3] at h2
  exact absurd h2 (by decide)

theorem is_stuck_fst_of_surrounded (st : PlannerState) (s : StateData)
    (h : surroundedCheck s.rawTiles = true) :
    (is_stuck st s).1 = true := by
  unfold is_stuck
  split
  · rfl
  · simpa using h

/-- C2 amended: when the player is boxed in enough to fire the surrounded
check (in particular fully boxed in on all 4 sides), the planning call with
priority list [EAST] takes the stuck-recovery branch and outputs the cancel
prefix B, B, B followed by a 16-step East zig-zag (16 'RIGHT' moves) and
the confirm move. -/
theorem boxed_in_sixteen_step_recovery (ext : Externals) (st : PlannerState)
    (s : StateData) (loc : String) (h : surroundedCheck s.rawTiles = true) :
    (path_with_priority_list ext st s ["EAST"] loc).actions =
      ["B", "B", "B"] ++ List.replicate 16 "RIGHT" ++ ["A"] := by
  have h1 : (is_stuck st s).1 = true := is_stuck_fst_of_surrounded st s h
  have hparse : (parse_priority_with_coefficients
      ((["EAST"] : List String).headD "NORTH")).1 = "EAST" := by decide
  have hzig : get_zigzag_pattern "EAST" 16 = List.replicate 16 "RIGHT" := by decide
  simp only [path_with_priority_list, h1, if_true]
  rw [hparse, hzig]

theorem boxed_in_sixteen_step_recovery_witness :
    surroundedCheck sBoxedIn.rawTiles = true ∧
      (path_with_priority_list extNone initialPlannerState sBoxedIn ["EAST"] "x").actions =
        ["B", "B", "B"] ++ List.replicate 16 "RIGHT" ++ ["A"] :=
  ⟨by decide, boxed_in_sixteen_step_recovery extNone initialPlannerState sBoxedIn "x"
    (by decide)⟩

-- ============================================================
-- C1: the priority resolver always yields a confirmed action sequence
-- ============================================================

theorem zigzagBase_ne_nil (d : String) : zigzagBase d ≠ [] := by
  unfold zigzagBase
  split_ifs <;> simp

theorem zigzagExtendLoop_length (base : List String) (hb : base ≠ []) :
    ∀ (fuel : Nat) (acc : List String) (len : Nat), len ≤ fuel + acc.length →
      len ≤ (zigzagExtendLoop base fuel acc len).length := by
  intro fuel
  induction fuel with
  | zero =>
      intro acc len h
      simpa [zigzagExtendLoop] using h
  | succ n ih =>
      intro acc len h
      unfold zigzagExtendLoop
      split
      · apply ih
        have : 1 ≤ base.length := List.length_pos.mpr hb
        simp only [List.length_append]
        omega
      · omega

theorem get_zigzag_pattern_length (d : String) (n : Nat) :
    (get_zigzag_pattern d n).length = n := by
  unfold get_zigzag_pattern
  rw [List.length_take]
  have := zigzagExtendLoop_length (zigzagBase d) (zigzagBase_ne_nil d) n [] n
    (by simp)
  omega

/-- Failure of one priority entry: it is a `DOOR_` special (skipped), or
the directional pathfinder finds no route for its parsed direction. -/
def priorityFails (ext : Externals) (s : StateData) (loc : String)
    (pr : String) : Prop :=
  "DOOR_".data.isPrefixOf pr.data = true ∨
    path_to_direction ext s (parse_priority_with_coefficients pr).1 loc = []

theorem tryPriorities_eq_none (ext : Externals) (s : StateData) (loc : String) :
    ∀ pl : List String, (∀ pr ∈ pl, priorityFails ext s loc pr) →
      tryPriorities ext s loc pl = none := by
  intro pl
  induction pl with
  | nil => intro _; rfl
  | cons pr rest ih =>
      intro h
      have hpr := h pr (List.mem_cons_self pr rest)
      have hrest : ∀ q ∈ rest, priorityFails ext s loc q :=
        fun q hq => h q (List.mem_cons_of_mem pr hq)
      unfold tryPriorities
      by_cases hdoor : "DOOR_".data.isPrefixOf pr.data = true
      · rw [if_pos hdoor]
        exact ih hrest
      · rw [if_neg hdoor]
        rcases hpr with hd | hp
        · exact absurd hd hdoor
        · rw [if_pos hp]
          exact ih hrest

theorem tryPriorities_some_shape (ext : Externals) (s : StateData) (loc : String) :
    ∀ (pl : List String) (pr : String) (acts : List String),
      tryPriorities ext s loc pl = some (pr, acts) → ∃ l, acts = l ++ ["A"] := by
  intro pl
  induction pl with
  | nil => intro pr acts h; cases h
  | cons p rest ih =>
      intro pr acts h
      unfold tryPriorities at h
      split at h
      · exact ih pr acts h
      · split at h
        · exact ih pr acts h
        · simp only [Option.some.injEq, Prod.mk.injEq] at h
          exact ⟨_, h.2.symm⟩

/-- C1: for every state and non-empty priority list the resolver returns a
non-empty action sequence ending in the confirm move "A" (it degrades
rather than failing), and when the detector is not stuck and every entry
fails it returns exactly the 8-step zig-zag seeded from the first entry's
parsed base direction, plus the confirm move. -/
theorem resolver_nonempty_confirm (ext : Externals) (st : PlannerState)
    (s : StateData) (pl : List String) (loc : String) (hpl : pl ≠ []) :
    ¬ (path_with_priority_list ext st s pl loc).actions = [] ∧
      (path_with_priority_list ext st s pl loc).actions.getLast? = some "A" ∧
      ((is_stuck st s).1 = false →
        (∀ pr ∈ pl, priorityFails ext s loc pr) →
        (path_with_priority_list ext st s pl loc).actions =
          get_zigzag_pattern
            (parse_priority_with_coefficients (pl.headD "NORTH")).1 8 ++ ["A"]) := by
  by_cases hstuck : (is_stuck st s).1 = true
  · simp only [path_with_priority_list, hstuck, if_true]
    refine ⟨by simp, List.getLast?_concat _, ?_⟩
    intro hns _
    exact absurd hns (by decide)
  · have hb : (is_stuck st s).1 = false := by
      cases hv : (is_stuck st s).1
      · rfl
      · exact absurd hv hstuck
    rcases htry : tryPriorities ext s loc pl with _ | ⟨pr, acts⟩
    · simp only [path_with_priority_list, hb, Bool.false_eq_true, if_false, htry]
      refine ⟨by simp, List.getLast?_concat _, ?_⟩
      intro _ _
      trivial
    · obtain ⟨l, hl⟩ := tryPriorities_some_shape ext s loc pl pr acts htry
      simp only [path_with_priority_list, hb, Bool.false_eq_true, if_false, htry]
      refine ⟨?_, ?_, ?_⟩
      · rw [hl]; simp
      · rw [hl]; exact List.getLast?_concat _
      · intro _ hall
        rw [tryPriorities_eq_none ext s loc pl hall] at htry
        cases htry

theorem resolver_nonempty_confirm_witness :
    (["NORTH"] : List String) ≠ [] ∧
      ¬ (path_with_priority_list extNone initialPlannerState sMinimal
          ["NORTH"] "x").actions = [] ∧
      (path_with_priority_list extNone initialPlannerState sMinimal
          ["NORTH"] "x").actions.getLast? = some "A" := by
  have h := resolver_nonempty_confirm extNone initialPlannerState sMinimal
    ["NORTH"] "x" (by decide)
  exact ⟨by decide, h.1, h.2.1⟩

-- ============================================================
-- C4: the goal selector's 2-unit directional guarantee
-- ============================================================

/-- The claim's reading of "at least 2 grid units further along the
intended axis": for cardinal directions the 2-unit requirement on that
axis; for diagonal directions the OR-combination of the two axes' 2-unit
requirements. -/
def twoUnitsAlong (d : String) (px py tx ty : Int) : Prop :=
  if d = "NORTH" then ty ≥ py + 2
  else if d = "SOUTH" then ty ≤ py - 2
  else if d = "EAST" then tx ≥ px + 2
  else if d = "WEST" then tx ≤ px - 2
  else if d = "NORTHEAST" then ty ≥ py + 2 ∨ tx ≥ px + 2
  else if d = "NORTHWEST" then ty ≥ py + 2 ∨ tx ≤ px - 2
  else if d = "SOUTHEAST" then ty ≤ py - 2 ∨ tx ≥ px + 2
  else if d = "SOUTHWEST" then ty ≤ py - 2 ∨ tx ≤ px - 2
  else False

theorem direction_filters_imp_twoUnits (d : String) (hd : d ∈ directionKeys)
    (px py tx ty : Int) (h : direction_filters d px py tx ty = true) :
    twoUnitsAlong d px py tx ty := by
  simp only [directionKeys, List.mem_cons, List.mem_singleton] at hd
  rcases hd with h' | h' | h' | h' | h' | h' | h' | h' | h' <;>
    first
    | (subst h'
       simp only [direction_filters, twoUnitsAlong, if_true, if_pos rfl] at h ⊢ <;>
       simp_all <;> tauto)
    | simp at h'

theorem rowCandidates_mem (d : String) (px pvy : Int) (hh y : Nat) :
    ∀ (x0 : Nat) (row : List Char) (sc : Int) (pos : Nat × Nat),
      (sc, pos) ∈ rowCandidates d px pvy hh y x0 row →
      direction_filters d px pvy (pos.1 : Int) (visY hh pos.2) = true := by
  intro x0 row
  induction row generalizing x0 with
  | nil => intro sc pos hm; simp [rowCandidates] at hm
  | cons c cs ih =>
      intro sc pos hm
      unfold rowCandidates at hm
      rw [List.mem_append] at hm
      rcases hm with hm | hm
      · split at hm
        · rename_i hcond
          simp only [List.mem_singleton, Prod.mk.injEq] at hm
          obtain ⟨-, hpos⟩ := hm
          subst hpos
          exact hcond.2
        · simp at hm
      · exact ih (x0 + 1) sc pos hm

theorem gridCandidates_mem (d : String) (px pvy : Int) (hh : Nat) :
    ∀ (y0 : Nat) (rows : List (List Char)) (sc : Int) (pos : Nat × Nat),
      (sc, pos) ∈ gridCandidates d px pvy hh y0 rows →
      direction_filters d px pvy (pos.1 : Int) (visY hh pos.2) = true := by
  intro y0 rows
  induction rows generalizing y0 with
  | nil => intro sc pos hm; simp [gridCandidates] at hm
  | cons row rest ih =>
      intro sc pos hm
      unfold gridCandidates at hm
      rw [List.mem_append] at hm
      rcases hm with hm | hm
      · exact rowCandidates_mem d px pvy hh y0 0 row sc pos hm
      · exact ih (y0 + 1) sc pos hm

theorem tryCandidates_inv (ext : Externals) (grid : List (List Char))
    (start : Nat × Nat) (d loc : String) :
    ∀ (l : List (Int × (Nat × Nat))) (g : Nat × Nat) (p : List String),
      tryCandidates ext grid start d loc l = some (g, p) →
      p = ext.astar_pathfind grid start g loc ∧ ∃ sc, (sc, g) ∈ l := by
  intro l
  induction l with
  | nil => intro g p h; cases h
  | cons hd tl ih =>
      obtain ⟨sc', g'⟩ := hd
      intro g p h
      unfold tryCandidates at h
      split at h
      · obtain ⟨he, sc, hm⟩ := ih g p h
        exact ⟨he, sc, List.mem_cons_of_mem _ hm⟩
      · split at h
        · obtain ⟨he, sc, hm⟩ := ih g p h
          exact ⟨he, sc, List.mem_cons_of_mem _ hm⟩
        · simp only [Option.some.injEq, Prod.mk.injEq] at h
          obtain ⟨hg, hp⟩ := h
          subst hg
          exact ⟨hp.symm, sc', List.mem_cons_self _ _⟩

/-- C4: every goal the goal selector commits to was kept by the
per-direction filter, and therefore lies at least 2 grid units beyond the
player along the intended axis (diagonal directions OR-combining the two
axes' 2-unit requirements), measured in visual coordinates against the
player position found on the built grid. -/
theorem goal_selector_two_units (ext : Externals) (s : StateData)
    (d loc : String) (g : Nat × Nat) (p : List String)
    (h : path_to_direction_goal ext s d loc = some (g, p)) :
    ∃ grid pgx pyIdx,
      ext.format_map_grid s.rawTiles "South" s.npcs (s.px, s.py) loc = some grid ∧
      findPlayer grid = some (pgx, pyIdx) ∧
      direction_filters d (pgx : Int) (visY grid.length pyIdx)
        (g.1 : Int) (visY grid.length g.2) = true ∧
      twoUnitsAlong d (pgx : Int) (visY grid.length pyIdx)
        (g.1 : Int) (visY grid.length g.2) := by
  unfold path_to_direction_goal at h
  by_cases hd0 : d ∉ directionKeys
  · rw [if_pos hd0] at h; cases h
  rw [if_neg hd0] at h
  by_cases ht : s.rawTiles = []
  · rw [if_pos ht] at h; cases h
  rw [if_neg ht] at h
  rcases heq : ext.format_map_grid s.rawTiles "South" s.npcs (s.px, s.py) loc with _ | grid
  · rw [heq] at h; simp at h
  rw [heq] at h
  dsimp only at h
  by_cases hge : grid = []
  · rw [if_pos hge] at h; cases h
  rw [if_neg hge] at h
  rcases heq2 : findPlayer grid with _ | ⟨pgx, pyIdx⟩
  · rw [heq2] at h; simp at h
  rw [heq2] at h
  dsimp only at h
  by_cases hs : List.insertionSort (fun a b : Int × (Nat × Nat) => b.1 ≤ a.1)
      (gridCandidates d (pgx : Int) (visY grid.length pyIdx) grid.length 0 grid) = []
  · rw [if_pos hs] at h; cases h
  rw [if_neg hs] at h
  obtain ⟨-, sc, hmem⟩ := tryCandidates_inv ext grid (pgx, pyIdx) d loc _ g p h
  have h1 := List.take_subset 20 _ hmem
  have h2 := (List.perm_insertionSort
    (fun a b : Int × (Nat × Nat) => b.1 ≤ a.1) _).subset h1
  have hfilter := gridCandidates_mem d (pgx : Int)
    (visY grid.length pyIdx) grid.length 0 grid sc g h2
  have hdkeys : d ∈ directionKeys := not_not.mp hd0
  exact ⟨grid, pgx, pyIdx, rfl, heq2, hfilter,
    direction_filters_imp_twoUnits d hdkeys _ _ _ _ hfilter⟩

/-- A concrete 3x5 grid: a wall row on top, three open rows, the player at
the bottom center. -/
def wGrid : List (List Char) :=
  [['#', '#', '#'],
   ['.', '.', '.'],
   ['.', '.', '.'],
   ['.', '.', '.'],
   ['.', 'P', '.']]

/-- Externals serving `wGrid` and one concrete 3-step route to `(1, 1)`,
which steps only on walkable tiles. -/
def extW : Externals :=
  { format_map_grid := fun _ _ _ _ _ => some wGrid,
    astar_pathfind := fun grid st g _ =>
      if grid = wGrid ∧ st = (1, 4) ∧ g = (1, 1) then ["UP", "UP", "UP"] else [] }

theorem goal_selector_two_units_witness :
    path_to_direction_goal extW sMinimal "NORTH" "x" =
        some ((1, 1), ["UP", "UP", "UP"]) ∧
      ∃ grid pgx pyIdx,
        extW.format_map_grid sMinimal.rawTiles "South" sMinimal.npcs
            (sMinimal.px, sMinimal.py) "x" = some grid ∧
        findPlayer grid = some (pgx, pyIdx) ∧
        direction_filters "NORTH" (pgx : Int) (visY grid.length pyIdx)
          ((1 : Nat) : Int) (visY grid.length 1) = true ∧
        twoUnitsAlong "NORTH" (pgx : Int) (visY grid.length pyIdx)
          ((1 : Nat) : Int) (visY grid.length 1) :=
  ⟨by decide, goal_selector_two_units extW sMinimal "NORTH" "x" (1, 1)
    ["UP", "UP", "UP"] (by decide)⟩

-- ============================================================
-- C3: returned routes versus Blocked/Water tiles
-- ============================================================

/-- A 1-wide corridor: two walkable cells above the player, then wall. -/
def cexGrid : List (List Char) := [['#'], ['#'], ['.'], ['.'], ['P']]

/-- Externals serving `cexGrid` with a path primitive that never returns a
route (hence vacuously satisfying the walkable-steps contract). -/
def extCexGrid : Externals :=
  { format_map_grid := fun _ _ _ _ _ => some cexGrid,
    astar_pathfind := fun _ _ _ _ => [] }

/-- C3 as claimed: under the walkable-steps contract for the path
primitive, every step of every action sequence returned by a planning call
(amplifier-appended and zig-zag fallback steps included) avoids Blocked
('#') and Water ('W') tiles of the source grid. -/
def claimC3Statement : Prop :=
  ∀ ext : Externals, astarWalkableContract ext →
    ∀ (st : PlannerState) (s : StateData) (pl : List String) (loc : String)
      (grid : List (List Char)) (ppos : Nat × Nat),
      ext.format_map_grid s.rawTiles "South" s.npcs (s.px, s.py) loc = some grid →
      findPlayer grid = some ppos →
      ∀ q ∈ routeTargets ppos (path_with_priority_list ext st s pl loc).actions,
        ¬ tileAtPos grid q = some '#' ∧ ¬ tileAtPos grid q = some 'W'

/-- C3 counterexample: with a path primitive that satisfies the contract
(it returns no routes at all), the planner's zig-zag fallback marches the
player straight into a Blocked tile of the source grid: the third step of
the returned 8-step North zig-zag targets the '#' cell at (0, 1). -/
theorem route_blocked_tiles_cex : ¬ claimC3Statement := by
  intro h
  have hc : astarWalkableContract extCexGrid := by
    intro grid st g loc q hq
    simp [extCexGrid, routeTargets, routeTargetsFrom] at hq
  have h2 := h extCexGrid hc initialPlannerState sMinimal ["NORTH"] "x"
    cexGrid (0, 4) rfl (by decide) ((0 : Int), (1 : Int)) (by decide)
  exact absurd (by decide : tileAtPos cexGrid ((0 : Int), (1 : Int)) = some '#') h2.1

theorem tryCandidates_path (ext : Externals) (grid : List (List Char))
    (start : Nat × Nat) (d loc : String) (l : List (Int × (Nat × Nat)))
    (g : Nat × Nat) (p : List String)
    (h : tryCandidates ext grid start d loc l = some (g, p)) :
    p = ext.astar_pathfind grid start g loc :=
  (tryCandidates_inv ext grid start d loc l g p h).1

/-- C3 amended: the guarantee holds for the base route: under the
walkable-steps contract, every step of the route `_path_to_direction`
returns (the path primitive's answer, before the amplifier appends extra
steps and before any zig-zag fallback) targets a walkable-symbol tile of
the built grid — in particular never a Blocked or Water tile.  The steps
the planner itself appends (amplifier extras, zig-zag patterns) are not
checked against the grid, as the counterexample shows. -/
theorem base_route_steps_walkable (ext : Externals)
    (hc : astarWalkableContract ext) (s : StateData) (d loc : String)
    (g : Nat × Nat) (p : List String) (grid : List (List Char))
    (ppos : Nat × Nat)
    (h : path_to_direction_goal ext s d loc = some (g, p))
    (hg : ext.format_map_grid s.rawTiles "South" s.npcs (s.px, s.py) loc = some grid)
    (hp : findPlayer grid = some ppos) :
    ∀ q ∈ routeTargets ppos p,
      ∃ c, tileAtPos grid q = some c ∧ c ∈ walkableTileSyms := by
  unfold path_to_direction_goal at h
  by_cases hd0 : d ∉ directionKeys
  · rw [if_pos hd0] at h; cases h
  rw [if_neg hd0] at h
  by_cases ht : s.rawTiles = []
  · rw [if_pos ht] at h; cases h
  rw [if_neg ht] at h
  rw [hg] at h
  dsimp only at h
  by_cases hge : grid = []
  · rw [if_pos hge] at h; cases h
  rw [if_neg hge] at h
  rw [hp] at h
  obtain ⟨pgx, pyIdx⟩ := ppos
  dsimp only at h
  by_cases hs : List.insertionSort (fun a b : Int × (Nat × Nat) => b.1 ≤ a.1)
      (gridCandidates d (pgx : Int) (visY grid.length pyIdx) grid.length 0 grid) = []
  · rw [if_pos hs] at h; cases h
  rw [if_neg hs] at h
  have hpath := tryCandidates_path ext grid (pgx, pyIdx) d loc _ g p h
  rw [hpath]
  exact fun q hq => hc grid (pgx, pyIdx) g loc q hq

/-- Externals whose path primitive answers the one query arising from
`wGrid` with a walkable 3-step route, satisfying the contract. -/
theorem extW_contract : astarWalkableContract extW := by
  intro grid st g loc q hq
  dsimp only [extW] at hq
  by_cases hcond : grid = wGrid ∧ st = (1, 4) ∧ g = (1, 1)
  · rw [if_pos hcond] at hq
    obtain ⟨hgr, hst, -⟩ := hcond
    subst hgr
    subst hst
    have hlist : routeTargets (1, 4) ["UP", "UP", "UP"] =
        [((1 : Int), (3 : Int)), (1, 2), (1, 1)] := by decide
    rw [hlist] at hq
    simp only [List.mem_cons, List.not_mem_nil, or_false] at hq
    rcases hq with hq | hq | hq <;> subst hq <;> exact ⟨'.', by decide, by decide⟩
  · rw [if_neg hcond] at hq
    simp [routeTargets, routeTargetsFrom] at hq

theorem base_route_steps_walkable_witness :
    (path_to_direction_goal extW sMinimal "NORTH" "x" =
        some ((1, 1), ["UP", "UP", "UP"])) ∧
      ∀ q ∈ routeTargets (1, 4) ["UP", "UP", "UP"],
        ∃ c, tileAtPos wGrid q = some c ∧ c ∈ walkableTileSyms :=
  ⟨by decide,
   base_route_steps_walkable extW extW_contract sMinimal "NORTH" "x" (1, 1)
     ["UP", "UP", "UP"] wGrid (1, 4) (by decide) rfl (by decide)⟩

-- ============================================================
-- C6: phase advancement in the route-104 controller
-- ============================================================

theorem route104Clamp_phase (st : PlannerState) :
    (route104Clamp st).currentPhase = min st.currentPhase 4 := by
  have h5 : route104Phases.length = 5 := rfl
  unfold route104Clamp
  split
  · rename_i hcond
    show route104Phases.length - 1 = min st.currentPhase 4
    omega
  · rename_i hcond
    show st.currentPhase = min st.currentPhase 4
    omega

theorem route104Clamp_advance_clamp (st : PlannerState) :
    route104Clamp (advance_phase (route104Clamp st)) =
      { st with currentPhase := min (min st.currentPhase 4 + 1) 4,
                phaseMoveCount := 0 } := by
  have h5 : route104Phases.length = 5 := rfl
  cases st
  simp only [route104Clamp, advance_phase]
  split_ifs <;>
    simp only [PlannerState.mk.injEq, and_true, true_and, h5] at * <;> omega

theorem is_stuck_update_phase (st : PlannerState) (s : StateData) :
    (is_stuck_update st s).currentPhase = st.currentPhase := by
  unfold is_stuck_update; split <;> rfl

theorem is_stuck_snd_phase (st : PlannerState) (s : StateData) :
    (is_stuck st s).2.currentPhase = st.currentPhase := by
  rw [is_stuck_snd]; exact is_stuck_update_phase st s

theorem pwpl_state_phase (ext : Externals) (st : PlannerState) (s : StateData)
    (pl : List String) (loc : String) :
    (path_with_priority_list ext st s pl loc).state.currentPhase =
      st.currentPhase := by
  simp only [path_with_priority_list]
  split
  · simp only [reset_stuck]
    exact is_stuck_snd_phase st s
  · split
    · exact is_stuck_snd_phase st s
    · exact is_stuck_snd_phase st s

theorem track_movement_phase (st : PlannerState) (a : String) :
    (track_movement st a).currentPhase = st.currentPhase := by
  unfold track_movement; split <;> rfl

/-- C6: when a planning call of the route-104 controller begins with the
moves-in-phase counter at or past the current (clamped) phase's threshold,
the call advances the phase index by one — clamped so the index used to
select a configuration never exceeds the last phase — resets the
moves-in-phase counter to 0, and computes its returned action under the new
phase's priority list before returning; the state it returns carries the
advanced phase index. -/
theorem route104_phase_advance (ext : Externals) (s : StateData)
    (loc : String) (st : PlannerState)
    (h : (phaseAt (min st.currentPhase 4)).threshold ≤ st.phaseMoveCount) :
    handle_route_104_north ext s loc st =
      (route104Prompt,
       planActionString (path_with_priority_list ext
         { st with currentPhase := min (min st.currentPhase 4 + 1) 4,
                   phaseMoveCount := 0 } s
         (phaseAt (min (min st.currentPhase 4 + 1) 4)).targets loc),
       track_movement
         (path_with_priority_list ext
           { st with currentPhase := min (min st.currentPhase 4 + 1) 4,
                     phaseMoveCount := 0 } s
           (phaseAt (min (min st.currentPhase 4 + 1) 4)).targets loc).state
         (planActionString (path_with_priority_list ext
           { st with currentPhase := min (min st.currentPhase 4 + 1) 4,
                     phaseMoveCount := 0 } s
           (phaseAt (min (min st.currentPhase 4 + 1) 4)).targets loc))) ∧
      (handle_route_104_north ext s loc st).2.2.currentPhase =
        min (min st.currentPhase 4 + 1) 4 := by
  have h5 : route104Phases.length = 5 := rfl
  have hcond : (phaseAt (route104Clamp st).currentPhase).threshold ≤
      (route104Clamp st).phaseMoveCount := by
    rw [route104Clamp_phase, route104Clamp_count]
    exact h
  have hneg : ¬ (phaseAt (route104Clamp (advance_phase (route104Clamp st))).currentPhase).threshold ≤
      (route104Clamp (advance_phase (route104Clamp st))).phaseMoveCount := by
    rw [route104Clamp_advance_clamp]
    have hlt : min (min st.currentPhase 4 + 1) 4 < route104Phases.length := by omega
    have := phaseAt_threshold_pos _ hlt
    simp only []
    omega
  have heq : handle_route_104_north ext s loc st =
      handle_route_104_north ext s loc (advance_phase (route104Clamp st)) := by
    rw [handle_route_104_north]
    exact dif_pos hcond
  have heq2 : handle_route_104_north ext s loc (advance_phase (route104Clamp st)) =
      (route104Prompt,
       planActionString (path_with_priority_list ext
         { st with currentPhase := min (min st.currentPhase 4 + 1) 4,
                   phaseMoveCount := 0 } s
         (phaseAt (min (min st.currentPhase 4 + 1) 4)).targets loc),
       track_movement
         (path_with_priority_list ext
           { st with currentPhase := min (min st.currentPhase 4 + 1) 4,
                     phaseMoveCount := 0 } s
           (phaseAt (min (min st.currentPhase 4 + 1) 4)).targets loc).state
         (planActionString (path_with_priority_list ext
           { st with currentPhase := min (min st.currentPhase 4 + 1) 4,
                     phaseMoveCount := 0 } s
           (phaseAt (min (min st.currentPhase 4 + 1) 4)).targets loc))) := by
    rw [handle_route_104_north]
    rw [dif_neg hneg]
    rw [route104Clamp_advance_clamp]
  refine ⟨heq.trans heq2, ?_⟩
  rw [heq.trans heq2]
  simp only []
  rw [track_movement_phase, pwpl_state_phase]

/-- A planner state that has exhausted phase 0's 10-move threshold. -/
def stPhaseFull : PlannerState := { initialPlannerState with phaseMoveCount := 10 }

theorem route104_phase_advance_witness :
    (phaseAt (min stPhaseFull.currentPhase 4)).threshold ≤ stPhaseFull.phaseMoveCount ∧
      (handle_route_104_north extNone sMinimal "x" stPhaseFull).2.2.currentPhase =
        min (min stPhaseFull.currentPhase 4 + 1) 4 :=
  ⟨by decide,
   (route104_phase_advance extNone sMinimal "x" stPhaseFull (by decide)).2⟩
